import Mathlib

/-!
Shallow embedding of `gambitcore/DatabaseQueries.py`: a read-only query
gateway over an SQLite database with three tables (`genomes`,
`genome_annotations`, `taxa`).  The database is modelled as lists of rows,
the SQL joins as nested list traversals in table order, `GROUP BY` as
grouping by first occurrence of the key, and `GROUP_CONCAT` together with
Python's `str.split(",")` at the character level via `String.data`.
The sqlite3 cursor is modelled as the list of pending result rows:
`execute` replaces the pending rows, `fetchone` pops the first row and
`fetchall` returns and clears all of them.  A database-layer failure
(`sqlite3.Error`) is modelled by an oracle argument `dberr : Option String`
carrying the engine message; the possible observable outcomes of a call
(normal return, `logging.error` followed by `exit(1)`, or an uncaught
exception) form the type `PyResult`.
-/

/-- A row of the `genomes` table: `id` and `refseq_acc`. -/
structure Genome where
  id : Nat
  refseq_acc : String
deriving DecidableEq, Repr

/-- A row of the `genome_annotations` join table. -/
structure GenomeAnnot where
  genome_id : Nat
  taxon_id : Nat
deriving DecidableEq, Repr

/-- A row of the `taxa` table: `id`, `name` and `rank`. -/
structure Taxon where
  id : Nat
  name : String
  rank : String
deriving DecidableEq, Repr

/-- The database state: the three tables, each a list of rows in insertion
order (SQLite scans them in this order for these unindexed queries). -/
structure DB where
  genomes : List Genome
  genome_annotations : List GenomeAnnot
  taxa : List Taxon
deriving DecidableEq, Repr

/-- The three-way inner join
`genomes JOIN genome_annotations ON genomes.id = genome_annotations.genome_id
JOIN taxa ON genome_annotations.taxon_id = taxa.id`,
rows produced in nested-loop order over the tables as listed. -/
def joinAll (db : DB) : List (Genome × Taxon) :=
  db.genomes.flatMap fun g =>
    db.genome_annotations.flatMap fun ga =>
      db.taxa.filterMap fun t =>
        if g.id = ga.genome_id ∧ ga.taxon_id = t.id then some (g, t) else none

/-- The same join with the extra join condition `t.rank = 'species'`
(used by the two `GROUP_CONCAT` queries). -/
def joinSpecies (db : DB) : List (Genome × Taxon) :=
  db.genomes.flatMap fun g =>
    db.genome_annotations.flatMap fun ga =>
      db.taxa.filterMap fun t =>
        if g.id = ga.genome_id ∧ ga.taxon_id = t.id ∧ t.rank = "species" then
          some (g, t)
        else none

/-- SQLite `GROUP_CONCAT` with its default separator: the accession strings
joined by single commas, built at the character level. -/
def sqlGroupConcat (accs : List String) : String :=
  ⟨List.intercalate [','] (accs.map String.data)⟩

/-- Python `s.split(",")`: split the character sequence on every comma.
(`"".split(",") = [""]`, `"a,,b".split(",") = ["a","","b"]`.) -/
def pySplitComma (s : String) : List String :=
  (s.data.splitOn ',').map fun cs => ⟨cs⟩

/-- Helper for `firstOccurrences`: keep the elements not yet seen,
threading the set of already-emitted keys. -/
def firstOccurrencesAux (seen : List String) : List String → List String
  | [] => []
  | x :: xs =>
      if x ∈ seen then firstOccurrencesAux seen xs
      else x :: firstOccurrencesAux (x :: seen) xs

/-- The distinct values of a list in order of first occurrence
(the grouping keys produced by `GROUP BY` over a scan). -/
def firstOccurrences (l : List String) : List String :=
  firstOccurrencesAux [] l

/-- `SELECT t.name, GROUP_CONCAT(g.refseq_acc) ... GROUP BY t.name` applied
to an already joined-and-filtered row list: one result row per distinct
taxon name (in first-occurrence order), pairing the name with the
comma-concatenation of the accessions of its rows in scan order. -/
def groupByName (rows : List (Genome × Taxon)) : List (String × String) :=
  (firstOccurrences (rows.map fun r => r.2.name)).map fun n =>
    (n, sqlGroupConcat (((rows.filter fun r => r.2.name = n).map fun r => r.1.refseq_acc)))

/-- An sqlite3 cursor holding the pending rows of the last executed query. -/
abbrev Cursor (ρ : Type) := List ρ

/-- `cursor.execute(sql, params)`: the pending result set becomes the rows
of the new query, discarding whatever was pending. -/
def cursorExecute (_c : Cursor ρ) (rows : List ρ) : Cursor ρ := rows

/-- `cursor.fetchone()`: the first pending row (or `None`), consumed. -/
def cursorFetchone : Cursor ρ → Option ρ × Cursor ρ
  | [] => (none, [])
  | r :: rest => (some r, rest)

/-- `cursor.fetchall()`: all pending rows, leaving the cursor exhausted. -/
def cursorFetchall (c : Cursor ρ) : List ρ × Cursor ρ := (c, [])

/-- The observable outcome of calling a gateway method: a normal return,
a `logging.error(log)` followed by `exit(code)`, or an uncaught
`sqlite3.Error` with message `exc` propagating to the caller. -/
inductive PyResult (α : Type) where
  | ok (val : α)
  | exited (log : String) (code : Nat)
  | raised (exc : String)
deriving DecidableEq, Repr

/-- Row list of the `find_species_from_accession` query: the selected
column `taxa.name` for every join row with `genomes.refseq_acc = ?`,
in scan order. -/
def findSpeciesRows (db : DB) (closest_accession : String) : List String :=
  ((joinAll db).filter fun r => r.1.refseq_acc = closest_accession).map
    fun r => r.2.name

/-- Body of `find_species_from_accession` when the query succeeds:
execute, `fetchone`, and return `species_name[0]` if a row came back,
else the sentinel `'Unknown'`. -/
def find_species_from_accession_query (db : DB) (c : Cursor String)
    (closest_accession : String) : String × Cursor String :=
  let c := cursorExecute c (findSpeciesRows db closest_accession)
  let (species_name, c) := cursorFetchone c
  let species_name_for_accession :=
    match species_name with
    | some n => n
    | none => "Unknown"
  (species_name_for_accession, c)

/-- `find_species_from_accession`: no try/except, so a database error
propagates as a raised exception. -/
def find_species_from_accession (db : DB) (c : Cursor String)
    (dberr : Option String) (closest_accession : String) :
    PyResult (String × Cursor String) :=
  match dberr with
  | some e => .raised e
  | none => .ok (find_species_from_accession_query db c closest_accession)

/-- Result rows of the two `GROUP BY t.name` queries, given the filtered
join rows: pairs (species_name, genbank_accessions). -/
abbrev Row2 := String × String

/-- Join rows of the `get_species_from_genomes_accession_from_db` query
before grouping: species-rank join rows with `g.refseq_acc = ?`. -/
def speciesRowsForAccession (db : DB) (genome_accession : String) :
    List (Genome × Taxon) :=
  (joinSpecies db).filter fun r => r.1.refseq_acc = genome_accession

/-- Body of `get_species_from_genomes_accession_from_db`'s try block:
execute the grouped query, `fetchall`, return `None` on an empty result
set and otherwise `results[0][0]`. -/
def get_species_from_genomes_accession_query (db : DB) (c : Cursor Row2)
    (genome_accession : String) : Option String × Cursor Row2 :=
  let c := cursorExecute c (groupByName (speciesRowsForAccession db genome_accession))
  let (results, c) := cursorFetchall c
  if results.length = 0 then (none, c)
  else (some (results.headD ("", "")).1, c)

/-- `get_species_from_genomes_accession_from_db`: the try block on success,
and on `sqlite3.Error` a `logging.error` with the method-specific prefix
followed by `exit(1)`. -/
def get_species_from_genomes_accession_from_db (db : DB) (c : Cursor Row2)
    (dberr : Option String) (genome_accession : String) :
    PyResult (Option String × Cursor Row2) :=
  match dberr with
  | some e =>
      .exited ("get_species_from_genomes_accession_from_db - Database query error: " ++ e) 1
  | none => .ok (get_species_from_genomes_accession_query db c genome_accession)

/-- Join rows of the `get_all_genomes_for_a_species_from_db` query before
grouping: species-rank join rows with `t.name = ?`. -/
def speciesRowsForName (db : DB) (species : String) : List (Genome × Taxon) :=
  (joinSpecies db).filter fun r => r.2.name = species

/-- Body of `get_all_genomes_for_a_species_from_db`'s try block: execute
the grouped query, `fetchall`, and build the Python dict
`{row[0]: row[1].split(",") for row in results}` (as an association list
in insertion order; its keys are distinct by construction of the grouping). -/
def get_all_genomes_for_a_species_query (db : DB) (c : Cursor Row2)
    (species : String) : List (String × List String) × Cursor Row2 :=
  let c := cursorExecute c (groupByName (speciesRowsForName db species))
  let (results, c) := cursorFetchall c
  (results.map fun row => (row.1, pySplitComma row.2), c)

/-- `get_all_genomes_for_a_species_from_db`: the try block on success, and
on `sqlite3.Error` a `logging.error` with the method-specific prefix
followed by `exit(1)`. -/
def get_all_genomes_for_a_species_from_db (db : DB) (c : Cursor Row2)
    (dberr : Option String) (species : String) :
    PyResult (List (String × List String) × Cursor Row2) :=
  match dberr with
  | some e =>
      .exited ("get_all_genomes_for_a_species_from_db - Database query error: " ++ e) 1
  | none => .ok (get_all_genomes_for_a_species_query db c species)

/-- `connect_to_db`: on success `sqlite3.connect(db_name).cursor()` yields a
fresh cursor with no pending rows; on `sqlite3.Error` it logs and exits. -/
def connect_to_db (_db_name : String) (connerr : Option String) :
    PyResult (Cursor Row2) :=
  match connerr with
  | some e => .exited ("Error connecting to the database: " ++ e) 1
  | none => .ok ([] : Cursor Row2)

/-- The gateway object: the stored filename and the cursor obtained at
construction time. -/
structure DatabaseQueries where
  database_filename : String
  cursor : Cursor Row2
deriving DecidableEq, Repr

/-- `DatabaseQueries.__init__`: store the filename and connect. -/
def DatabaseQueries.init (database_filename : String) (connerr : Option String) :
    PyResult DatabaseQueries :=
  match connect_to_db database_filename connerr with
  | .ok c => .ok ⟨database_filename, c⟩
  | .exited log code => .exited log code
  | .raised e => .raised e

/-- Declarative description used by the claims: the accessions of all
genomes annotated at species rank to a taxon named `name`, in join order
(exactly the accessions aggregated by `GROUP_CONCAT` for that name). -/
def annotatedAccessions (db : DB) (name : String) : List String :=
  (speciesRowsForName db name).map fun r => r.1.refseq_acc

/-- The seeded scenario of the spec: genomes `GCF_000001` and `GCF_000002`
both annotated at species rank to the taxon `Escherichia coli`. -/
def ecoliDB : DB :=
  { genomes := [⟨1, "GCF_000001"⟩, ⟨2, "GCF_000002"⟩]
    genome_annotations := [⟨1, 10⟩, ⟨2, 10⟩]
    taxa := [⟨10, "Escherichia coli", "species"⟩] }

example :
    (get_all_genomes_for_a_species_query ecoliDB [] "Escherichia coli").1 =
      [("Escherichia coli", ["GCF_000001", "GCF_000002"])] := by decide

example :
    (get_all_genomes_for_a_species_query ecoliDB [] "Salmonella").1 = [] := by decide

example :
    (find_species_from_accession_query ecoliDB [] "GCF_000001").1 =
      "Escherichia coli" := by decide

example :
    (get_species_from_genomes_accession_query ecoliDB [] "GCF_000002").1 =
      some "Escherichia coli" := by decide

example :
    (get_species_from_genomes_accession_query ecoliDB [] "nope").1 = none := by
  decide

/-! ### Helper lemmas -/

/-- Every row of the species-rank join picks its genome from `genomes`
and carries a taxon of rank `species`. -/
theorem mem_joinSpecies {db : DB} {r : Genome × Taxon} (h : r ∈ joinSpecies db) :
    r.1 ∈ db.genomes ∧ r.2.rank = "species" := by
  simp only [joinSpecies, List.mem_flatMap, List.mem_filterMap,
    Option.ite_none_right_eq_some] at h
  obtain ⟨g, hg, ga, _hga, t, _ht, ⟨_h1, _h2, hrank⟩, hr⟩ := h
  cases hr
  exact ⟨hg, hrank⟩

/-- Membership in the filtered rows of the species-name query. -/
theorem mem_speciesRowsForName {db : DB} {species : String} {r : Genome × Taxon}
    (h : r ∈ speciesRowsForName db species) :
    r ∈ joinSpecies db ∧ r.2.name = species := by
  simp only [speciesRowsForName, List.mem_filter, decide_eq_true_eq] at h
  exact h

/-- If everything in `l` was already seen, the grouping emits nothing. -/
theorem firstOccurrencesAux_eq_nil {seen : List String} {l : List String}
    (h : ∀ x ∈ l, x ∈ seen) : firstOccurrencesAux seen l = [] := by
  induction l with
  | nil => rfl
  | cons x xs ih =>
      simp only [firstOccurrencesAux, if_pos (h x (List.mem_cons_self x xs))]
      exact ih fun y hy => h y (List.mem_cons_of_mem x hy)

/-- A nonempty list all of whose elements are `a` has `[a]` as its list of
grouping keys. -/
theorem firstOccurrences_all_eq {l : List String} {a : String}
    (h : ∀ x ∈ l, x = a) (hne : l ≠ []) : firstOccurrences l = [a] := by
  cases l with
  | nil => exact absurd rfl hne
  | cons x xs =>
      have hx : x = a := h x (List.mem_cons_self x xs)
      subst hx
      simp only [firstOccurrences, firstOccurrencesAux, List.not_mem_nil,
        if_false, List.cons.injEq, true_and]
      exact firstOccurrencesAux_eq_nil fun y hy =>
        (h y (List.mem_cons_of_mem x hy)) ▸ List.mem_cons_self y []

/-- Grouping a nonempty row list whose rows all carry the same taxon name
yields a single result row: that name with all accessions concatenated. -/
theorem groupByName_const {rows : List (Genome × Taxon)} {sp : String}
    (h : ∀ r ∈ rows, r.2.name = sp) (hne : rows ≠ []) :
    groupByName rows = [(sp, sqlGroupConcat (rows.map fun r => r.1.refseq_acc))] := by
  have hkeys : firstOccurrences (rows.map fun r => r.2.name) = [sp] :=
    firstOccurrences_all_eq
      (by intro x hx; obtain ⟨r, hr, rfl⟩ := List.mem_map.mp hx; exact h r hr)
      (by simpa using hne)
  have hfilter : rows.filter (fun r => r.2.name = sp) = rows :=
    List.filter_eq_self.mpr fun r hr => by simp [h r hr]
  simp [groupByName, hkeys, hfilter]

/-- Splitting the `GROUP_CONCAT` of a nonempty list of comma-free strings
recovers the list (Python `",".join(xs).split(",") == xs`). -/
theorem pySplitComma_sqlGroupConcat {accs : List String}
    (h : ∀ a ∈ accs, ',' ∉ a.data) (hne : accs ≠ []) :
    pySplitComma (sqlGroupConcat accs) = accs := by
  have hx : ∀ l ∈ accs.map String.data, ',' ∉ l := by
    intro l hl
    obtain ⟨a, ha, rfl⟩ := List.mem_map.mp hl
    exact h a ha
  have hls : accs.map String.data ≠ [] := by simpa using hne
  have hsplit : (List.intercalate [','] (accs.map String.data)).splitOn ',' =
      accs.map String.data := List.splitOn_intercalate (accs.map String.data) ',' hx hls
  calc pySplitComma (sqlGroupConcat accs)
      = ((List.intercalate [','] (accs.map String.data)).splitOn ',').map
          (fun cs => (⟨cs⟩ : String)) := rfl
    _ = (accs.map String.data).map (fun cs => (⟨cs⟩ : String)) := by rw [hsplit]
    _ = accs := by
          rw [List.map_map]
          exact List.map_id'' (fun a => rfl) accs

/-- The grouped result of a nonempty row list is nonempty. -/
theorem groupByName_cons_ne_nil (r : Genome × Taxon) (rest : List (Genome × Taxon)) :
    groupByName (r :: rest) ≠ [] := by
  simp [groupByName, firstOccurrences, firstOccurrencesAux]

/-- The first grouping key of a nonempty row list is the taxon name of the
first row: `results[0][0]` is the first scanned row's `t.name`. -/
theorem groupByName_cons_head (r : Genome × Taxon) (rest : List (Genome × Taxon)) :
    ((groupByName (r :: rest)).headD ("", "")).1 = r.2.name := by
  simp [groupByName, firstOccurrences, firstOccurrencesAux]

/-- The comma-split of any string is nonempty (Python `split` never
returns an empty list). -/
theorem pySplitComma_ne_nil (s : String) : pySplitComma s ≠ [] := by
  have h : s.data.splitOn ',' ≠ [] := List.splitOnP_ne_nil _ s.data
  simpa [pySplitComma] using h

/-- A database with one genome whose accession contains the aggregation
delimiter, annotated at species rank to `Escherichia coli`. -/
def commaDB : DB :=
  { genomes := [⟨1, "GCF,0001"⟩]
    genome_annotations := [⟨1, 10⟩]
    taxa := [⟨10, "Escherichia coli", "species"⟩] }

/-- A database whose species-rank taxon name itself contains the
aggregation delimiter, with a comma-free accession. -/
def commaNameDB : DB :=
  { genomes := [⟨1, "GCF_9"⟩]
    genome_annotations := [⟨1, 5⟩]
    taxa := [⟨5, "Yersinia, atypical", "species"⟩] }

/-- A database in which the accession `ACC_X` is annotated to a taxon whose
name is the literal string `Unknown`. -/
def unknownDB : DB :=
  { genomes := [⟨1, "ACC_X"⟩]
    genome_annotations := [⟨1, 7⟩]
    taxa := [⟨7, "Unknown", "species"⟩] }

/-! ### Claim theorems -/

/-- C2: `find_species_from_accession` performs the three-way join of
genomes, genome_annotations and taxa filtered by `refseq_acc` equal to the
input with no rank filter, and returns the first matching taxon name; if no
row matches, it returns the literal string `"Unknown"`. -/
theorem c2_find_species_broad (db : DB) (c : Cursor String)
    (closest_accession : String) :
    (∀ n rest, findSpeciesRows db closest_accession = n :: rest →
        find_species_from_accession db c none closest_accession = .ok (n, rest)) ∧
    (findSpeciesRows db closest_accession = [] →
        find_species_from_accession db c none closest_accession =
          .ok ("Unknown", [])) := by
  constructor
  · intro n rest h
    simp [find_species_from_accession, find_species_from_accession_query,
      cursorExecute, cursorFetchone, h]
  · intro h
    simp [find_species_from_accession, find_species_from_accession_query,
      cursorExecute, cursorFetchone, h]

/-- Witness for C2 on the seeded database: a known accession resolves to
its taxon name and an absent accession to `"Unknown"`. -/
theorem c2_find_species_broad_witness :
    findSpeciesRows ecoliDB "GCF_000001" = ["Escherichia coli"] ∧
    find_species_from_accession ecoliDB [] none "GCF_000001" =
      .ok ("Escherichia coli", []) ∧
    findSpeciesRows ecoliDB "ZZZ" = [] ∧
    find_species_from_accession ecoliDB [] none "ZZZ" = .ok ("Unknown", []) := by
  refine ⟨by decide, ?_, by decide, ?_⟩
  · exact (c2_find_species_broad ecoliDB [] "GCF_000001").1
      "Escherichia coli" [] (by decide)
  · exact (c2_find_species_broad ecoliDB [] "ZZZ").2 (by decide)

/-- C3: `get_species_from_genomes_accession_from_db` returns the species
name (first column of the first result row) whenever the species-rank join
filtered by the given accession produces at least one row, and the
absent-value marker `none` (distinct from the string `"Unknown"`) when it
produces no row. -/
theorem c3_species_rank_lookup (db : DB) (c : Cursor Row2)
    (genome_accession : String) :
    (∀ r rest, speciesRowsForAccession db genome_accession = r :: rest →
        get_species_from_genomes_accession_from_db db c none genome_accession =
          .ok (some r.2.name, [])) ∧
    (speciesRowsForAccession db genome_accession = [] →
        get_species_from_genomes_accession_from_db db c none genome_accession =
          .ok (none, [])) ∧
    (∀ s : String, (none : Option String) ≠ some s) := by
  refine ⟨?_, ?_, fun s h => Option.noConfusion h⟩
  · intro r rest h
    have hne := groupByName_cons_ne_nil r rest
    have hhead := groupByName_cons_head r rest
    have hlen : (groupByName (r :: rest)).length ≠ 0 := by
      simpa [List.length_eq_zero] using hne
    simp [get_species_from_genomes_accession_from_db,
      get_species_from_genomes_accession_query, cursorExecute, cursorFetchall,
      h, hlen]
    simpa using hhead
  · intro h
    simp [get_species_from_genomes_accession_from_db,
      get_species_from_genomes_accession_query, cursorExecute, cursorFetchall,
      h, groupByName, firstOccurrences, firstOccurrencesAux]

/-- Witness for C3 on the seeded database: a species-rank annotated
accession resolves to its species name, an absent one to `none`. -/
theorem c3_species_rank_lookup_witness :
    speciesRowsForAccession ecoliDB "GCF_000002" =
      [(⟨2, "GCF_000002"⟩, ⟨10, "Escherichia coli", "species"⟩)] ∧
    get_species_from_genomes_accession_from_db ecoliDB [] none "GCF_000002" =
      .ok (some "Escherichia coli", []) ∧
    speciesRowsForAccession ecoliDB "ZZZ" = [] ∧
    get_species_from_genomes_accession_from_db ecoliDB [] none "ZZZ" =
      .ok (none, []) := by
  refine ⟨by decide, ?_, by decide, ?_⟩
  · exact (c3_species_rank_lookup ecoliDB [] "GCF_000002").1
      (⟨2, "GCF_000002"⟩, ⟨10, "Escherichia coli", "species"⟩) [] (by decide)
  · exact (c3_species_rank_lookup ecoliDB [] "ZZZ").2.1 (by decide)

/-- Core specification of the species-to-accessions query: when no stored
accession annotated to the queried species contains a comma, the returned
dict is the single-key map to exactly those accessions in aggregation
order, or empty when nothing matches. -/
theorem getAllGenomes_spec (db : DB) (c : Cursor Row2) (species : String)
    (hcomma : ∀ a ∈ annotatedAccessions db species, ',' ∉ a.data) :
    (speciesRowsForName db species ≠ [] →
        get_all_genomes_for_a_species_from_db db c none species =
          .ok ([(species, annotatedAccessions db species)], [])) ∧
    (speciesRowsForName db species = [] →
        get_all_genomes_for_a_species_from_db db c none species = .ok ([], [])) := by
  constructor
  · intro hne
    have hnames : ∀ r ∈ speciesRowsForName db species, r.2.name = species :=
      fun r hr => (mem_speciesRowsForName hr).2
    have hg := groupByName_const hnames hne
    have haccne : annotatedAccessions db species ≠ [] := by
      simpa [annotatedAccessions] using hne
    have hsplit := pySplitComma_sqlGroupConcat hcomma haccne
    have hstep : get_all_genomes_for_a_species_from_db db c none species =
        .ok ((groupByName (speciesRowsForName db species)).map
          (fun row => (row.1, pySplitComma row.2)), []) := rfl
    rw [hstep, hg]
    simp only [List.map_cons, List.map_nil]
    rw [show sqlGroupConcat ((speciesRowsForName db species).map fun r => r.1.refseq_acc) =
        sqlGroupConcat (annotatedAccessions db species) from rfl, hsplit]
  · intro h
    have hstep : get_all_genomes_for_a_species_from_db db c none species =
        .ok ((groupByName (speciesRowsForName db species)).map
          (fun row => (row.1, pySplitComma row.2)), []) := rfl
    rw [hstep, h]
    rfl

/-- C1: for every species name, `get_all_genomes_for_a_species_from_db`
returns the mapping from species name to the comma-split of the aggregated
accession string; when the name matches a species-rank taxon with annotated
genomes the mapping has exactly the input name as key, mapped to all
accessions annotated to that species at species rank in aggregation order;
when no row matches it returns the empty mapping; and on the seeded
Escherichia coli database it returns exactly the two seeded accessions. -/
theorem c1_accessions_for_species (db : DB) (c : Cursor Row2) (species : String)
    (hcomma : ∀ g ∈ db.genomes, ',' ∉ g.refseq_acc.data) :
    (speciesRowsForName db species ≠ [] →
        get_all_genomes_for_a_species_from_db db c none species =
          .ok ([(species, annotatedAccessions db species)], [])) ∧
    (speciesRowsForName db species = [] →
        get_all_genomes_for_a_species_from_db db c none species = .ok ([], [])) ∧
    get_all_genomes_for_a_species_from_db ecoliDB [] none "Escherichia coli" =
      .ok ([("Escherichia coli", ["GCF_000001", "GCF_000002"])], []) := by
  have hc : ∀ a ∈ annotatedAccessions db species, ',' ∉ a.data := by
    intro a ha
    obtain ⟨r, hr, rfl⟩ := List.mem_map.mp ha
    exact hcomma r.1 (mem_joinSpecies (mem_speciesRowsForName hr).1).1
  have h := getAllGenomes_spec db c species hc
  exact ⟨h.1, h.2, by decide⟩

/-- Witness for C1 on the seeded database: the hypothesis holds (no seeded
accession contains a comma), a matching row exists, and the call returns
exactly the two seeded accessions under the one key. -/
theorem c1_accessions_for_species_witness :
    (',' ∉ ("GCF_000001" : String).data) ∧
    (',' ∉ ("GCF_000002" : String).data) ∧
    get_all_genomes_for_a_species_from_db ecoliDB [] none "Escherichia coli" =
      .ok ([("Escherichia coli", ["GCF_000001", "GCF_000002"])], []) := by
  refine ⟨by decide, by decide, ?_⟩
  exact (c1_accessions_for_species ecoliDB [] "Escherichia coli" (by decide)).2.2

/-- C4: a database error during `get_species_from_genomes_accession_from_db`
or `get_all_genomes_for_a_species_from_db` is caught, logged with a
method-specific message prefix, and the process exits with the non-zero
status 1; neither a normal return value nor a raised exception reaches the
caller, and the two log messages are distinct for the same engine error. -/
theorem c4_query_error_exits (db : DB) (c c2 : Cursor Row2) (e acc sp : String) :
    get_species_from_genomes_accession_from_db db c (some e) acc =
        .exited ("get_species_from_genomes_accession_from_db - Database query error: " ++ e) 1 ∧
    get_all_genomes_for_a_species_from_db db c2 (some e) sp =
        .exited ("get_all_genomes_for_a_species_from_db - Database query error: " ++ e) 1 ∧
    ("get_species_from_genomes_accession_from_db - Database query error: " ++ e ≠
        "get_all_genomes_for_a_species_from_db - Database query error: " ++ e) ∧
    (1 : Nat) ≠ 0 ∧
    (∀ v, get_species_from_genomes_accession_from_db db c (some e) acc ≠ .ok v) ∧
    (∀ v, get_all_genomes_for_a_species_from_db db c2 (some e) sp ≠ .ok v) ∧
    (∀ x, get_species_from_genomes_accession_from_db db c (some e) acc ≠ .raised x) ∧
    (∀ x, get_all_genomes_for_a_species_from_db db c2 (some e) sp ≠ .raised x) := by
  refine ⟨rfl, rfl, ?_, by decide, fun v h => PyResult.noConfusion h,
    fun v h => PyResult.noConfusion h, fun x h => PyResult.noConfusion h,
    fun x h => PyResult.noConfusion h⟩
  intro h
  have hd := congrArg String.data h
  rw [String.data_append, String.data_append] at hd
  have hl := congrArg List.length hd
  rw [List.length_append, List.length_append] at hl
  have h2 := Nat.add_right_cancel hl
  exact absurd h2 (by decide)

/-- Witness for C4: a concrete engine error on the seeded database makes
both methods log their prefixed message and exit with status 1. -/
theorem c4_query_error_exits_witness :
    get_species_from_genomes_accession_from_db ecoliDB [] (some "disk I/O error") "GCF_000001" =
        .exited ("get_species_from_genomes_accession_from_db - Database query error: " ++
          "disk I/O error") 1 ∧
    get_all_genomes_for_a_species_from_db ecoliDB [] (some "disk I/O error") "Escherichia coli" =
        .exited ("get_all_genomes_for_a_species_from_db - Database query error: " ++
          "disk I/O error") 1 := by
  have h := c4_query_error_exits ecoliDB [] [] "disk I/O error"
    "GCF_000001" "Escherichia coli"
  exact ⟨h.1, h.2.1⟩

/-- C5: `find_species_from_accession` catches no database errors: a
database-layer failure propagates to the caller as a raised exception,
and is neither logged-and-exited nor turned into a return value. -/
theorem c5_broad_error_propagates (db : DB) (c : Cursor String) (e acc : String) :
    find_species_from_accession db c (some e) acc = .raised e ∧
    (∀ log code, find_species_from_accession db c (some e) acc ≠ .exited log code) ∧
    (∀ v, find_species_from_accession db c (some e) acc ≠ .ok v) := by
  exact ⟨rfl, fun log code h => PyResult.noConfusion h,
    fun v h => PyResult.noConfusion h⟩

/-- Witness for C5: a concrete engine error during the broad lookup is
re-raised unchanged. -/
theorem c5_broad_error_propagates_witness :
    find_species_from_accession ecoliDB [] (some "database is locked") "GCF_000001" =
      .raised "database is locked" := by
  exact (c5_broad_error_propagates ecoliDB [] "database is locked" "GCF_000001").1

/-- C6: constructing the gateway opens a connection and acquires a cursor;
if connecting fails the error is logged and the process exits with the
non-zero status 1, and no exception reaches the constructor's caller. -/
theorem c6_init_connect_error_exits (database_filename e : String) :
    DatabaseQueries.init database_filename (some e) =
        .exited ("Error connecting to the database: " ++ e) 1 ∧
    (1 : Nat) ≠ 0 ∧
    (∀ x, DatabaseQueries.init database_filename (some e) ≠ .raised x) ∧
    (∀ g, DatabaseQueries.init database_filename (some e) ≠ .ok g) ∧
    DatabaseQueries.init database_filename none =
      .ok ⟨database_filename, ([] : Cursor Row2)⟩ := by
  exact ⟨rfl, by decide, fun x h => PyResult.noConfusion h,
    fun g h => PyResult.noConfusion h, rfl⟩

/-- Witness for C6: a concrete connection failure logs and exits with
status 1, and a successful construction stores the filename and a fresh
cursor. -/
theorem c6_init_connect_error_exits_witness :
    DatabaseQueries.init "gambit.db" (some "unable to open database file") =
        .exited ("Error connecting to the database: " ++ "unable to open database file") 1 ∧
    DatabaseQueries.init "gambit.db" none = .ok ⟨"gambit.db", ([] : Cursor Row2)⟩ := by
  have h := c6_init_connect_error_exits "gambit.db" "unable to open database file"
  exact ⟨h.1, h.2.2.2.2⟩

/-- C7 counterexample: an accession containing the comma delimiter is NOT
round-tripped: the stored accession `GCF,0001` comes back as the two
fragments `GCF` and `0001`, so the claim as stated is false. -/
theorem c7_roundtrip_counterexample :
    annotatedAccessions commaDB "Escherichia coli" = ["GCF,0001"] ∧
    get_all_genomes_for_a_species_from_db commaDB [] none "Escherichia coli" =
      .ok ([("Escherichia coli", ["GCF", "0001"])], []) ∧
    ¬ get_all_genomes_for_a_species_from_db commaDB [] none "Escherichia coli" =
        .ok ([("Escherichia coli", annotatedAccessions commaDB "Escherichia coli")], []) := by
  decide

/-- C7 (amended): the round-trip holds whenever no accession annotated to
the queried species contains the comma delimiter; species names may contain
commas freely since the name is the grouping key, not aggregated. -/
theorem c7_roundtrip_amended (db : DB) (c : Cursor Row2) (species : String)
    (hcomma : ∀ a ∈ annotatedAccessions db species, ',' ∉ a.data) :
    (speciesRowsForName db species ≠ [] →
        get_all_genomes_for_a_species_from_db db c none species =
          .ok ([(species, annotatedAccessions db species)], [])) ∧
    pySplitComma (sqlGroupConcat (annotatedAccessions db species)) =
      (if annotatedAccessions db species = [] then pySplitComma (sqlGroupConcat [])
       else annotatedAccessions db species) := by
  refine ⟨(getAllGenomes_spec db c species hcomma).1, ?_⟩
  by_cases h : annotatedAccessions db species = []
  · rw [if_pos h, h]
  · rw [if_neg h]
    exact pySplitComma_sqlGroupConcat hcomma h

/-- Witness for the amended C7: a species whose name itself contains the
delimiter still round-trips its (comma-free) accession exactly. -/
theorem c7_roundtrip_amended_witness :
    (',' ∉ ("GCF_9" : String).data) ∧
    get_all_genomes_for_a_species_from_db commaNameDB [] none "Yersinia, atypical" =
      .ok ([("Yersinia, atypical", ["GCF_9"])], []) := by
  refine ⟨by decide, ?_⟩
  have h := (c7_roundtrip_amended commaNameDB [] "Yersinia, atypical" (by decide)).1 (by decide)
  exact h.trans (by decide)

/-- C8: with unchanged database state, running any of the three read
operations twice in a row with the same input yields the same result the
second time (the cursor's pending rows are overwritten by each execute, so
results do not depend on leftover cursor state). -/
theorem c8_reads_idempotent (db : DB) (c1 : Cursor String) (c2 c3 : Cursor Row2)
    (acc acc2 sp : String) :
    (find_species_from_accession_query db
        (find_species_from_accession_query db c1 acc).2 acc).1 =
      (find_species_from_accession_query db c1 acc).1 ∧
    (get_species_from_genomes_accession_query db
        (get_species_from_genomes_accession_query db c2 acc2).2 acc2).1 =
      (get_species_from_genomes_accession_query db c2 acc2).1 ∧
    (get_all_genomes_for_a_species_query db
        (get_all_genomes_for_a_species_query db c3 sp).2 sp).1 =
      (get_all_genomes_for_a_species_query db c3 sp).1 := by
  exact ⟨rfl, rfl, rfl⟩

/-- C9: every value of the returned dict is a non-empty list, because
Python's `split` on a string always yields at least one element. -/
theorem c9_dict_values_nonempty (db : DB) (c : Cursor Row2)
    (species : String) (m : List (String × List String)) (c2 : Cursor Row2)
    (k : String) (v : List String)
    (hok : get_all_genomes_for_a_species_from_db db c none species = .ok (m, c2))
    (hmem : (k, v) ∈ m) : v ≠ [] := by
  have hm : m = (groupByName (speciesRowsForName db species)).map
      (fun row => (row.1, pySplitComma row.2)) := by
    have : get_all_genomes_for_a_species_from_db db c none species =
        .ok ((groupByName (speciesRowsForName db species)).map
          (fun row => (row.1, pySplitComma row.2)), []) := rfl
    rw [this] at hok
    injection hok with hok
    exact (congrArg Prod.fst hok).symm
  subst hm
  obtain ⟨row, _hrow, heq⟩ := List.mem_map.mp hmem
  injection heq with h1 h2
  subst h2
  exact pySplitComma_ne_nil row.2

/-- Witness for C9: on the seeded database the single dict entry holds the
two seeded accessions, a non-empty list. -/
theorem c9_dict_values_nonempty_witness :
    (("Escherichia coli", ["GCF_000001", "GCF_000002"]) ∈
      [("Escherichia coli", ["GCF_000001", "GCF_000002"])]) ∧
    (["GCF_000001", "GCF_000002"] : List String) ≠ [] := by
  refine ⟨by decide, ?_⟩
  exact c9_dict_values_nonempty ecoliDB [] "Escherichia coli"
    [("Escherichia coli", ["GCF_000001", "GCF_000002"])] []
    "Escherichia coli" ["GCF_000001", "GCF_000002"] (by decide) (by decide)

/-- C10: the `"Unknown"` result of `find_species_from_accession` is
ambiguous: in a database whose taxon is literally named `Unknown`, a
present, annotated accession and an absent accession both return
`"Unknown"`. -/
theorem c10_unknown_sentinel_ambiguous :
    (⟨1, "ACC_X"⟩ : Genome) ∈ unknownDB.genomes ∧
    findSpeciesRows unknownDB "ACC_X" = ["Unknown"] ∧
    find_species_from_accession unknownDB [] none "ACC_X" = .ok ("Unknown", []) ∧
    findSpeciesRows unknownDB "ABSENT" = [] ∧
    find_species_from_accession unknownDB [] none "ABSENT" =
      .ok ("Unknown", []) := by
  decide
